import Mathlib

/-!
Shallow embedding of the document-ingestion pipeline (`src/main.py`,
function `ingest_file`) together with its external collaborators as the
specification describes their interfaces: the collection store, the
filesystem, the MIME-type guesser and the recursive chunker.

Exceptions are modelled with `Except Exn`: a top-level `Except.error`
value of `ingest_file` means a Python exception propagated out of the
function; `Except.ok` carries the returned dictionary, modelled by
`IngestResult`.
-/

/-- Kind of a Python exception, as far as the pipeline distinguishes them:
`ValueError` (caught by the collection-existence check), `UnicodeDecodeError`
(caught by the text-read fallback) and everything else. -/
inductive ExnTy : Type
  | valueError
  | unicodeDecodeError
  | otherError
deriving DecidableEq, Repr

/-- A Python exception: its kind and its `str(e)` message. -/
structure Exn where
  ty : ExnTy
  msg : String
deriving DecidableEq, Repr

/-- A metadata record attached to a stored document, mirroring the two dict
shapes built in `ingest_file`: the text-chunk shape with `chunk_index` and
`total_chunks`, and the binary shape with `is_binary`. -/
inductive Metadata : Type
  | textMeta (source_file content_type : String) (chunk_index total_chunks : Nat)
  | binMeta (source_file content_type : String) (is_binary : Bool)
deriving DecidableEq, Repr

/-- The `chunk_index` field of a metadata record, when present. -/
def Metadata.chunkIndex : Metadata → Option Nat
  | .textMeta _ _ i _ => some i
  | .binMeta _ _ _ => none

/-- The `total_chunks` field of a metadata record, when present. -/
def Metadata.totalChunks : Metadata → Option Nat
  | .textMeta _ _ _ n => some n
  | .binMeta _ _ _ => none

/-- The `is_binary` field of a metadata record, when present. -/
def Metadata.isBinary : Metadata → Option Bool
  | .textMeta _ _ _ _ => none
  | .binMeta _ _ b => some b

/-- One invocation of the store's append operation
(`collection.add(documents=..., metadatas=..., ids=...)`). -/
structure WriteRecord where
  collection : String
  documents : List String
  metadatas : List Metadata
  ids : List String
deriving DecidableEq, Repr

/-- The collection store (Chroma), as seen through the interface the pipeline
uses: a set of existing collection names, an optional injected exception for
`get_collection` per name (modelling store failures other than the normal
not-found `ValueError`), an optional injected exception for `add`, and the log
of append invocations performed so far. -/
structure Store where
  collections : List String
  getExn : List (String × Exn)
  addExn : Option Exn
  writes : List WriteRecord
deriving DecidableEq, Repr

/-- `chroma_client.get_collection(name)`: raises the injected exception when
one is configured for `name`; otherwise raises `ValueError` when the
collection does not exist, and succeeds when it does. -/
def Store.getCollection (st : Store) (name : String) : Except Exn Unit :=
  match st.getExn.lookup name with
  | some e => .error e
  | none =>
    if st.collections.contains name then .ok ()
    else .error ⟨.valueError, "Collection " ++ name ++ " does not exist"⟩

/-- `collection.add(...)`: raises the injected exception when one is
configured, otherwise appends one invocation record to the write log. -/
def Store.add (st : Store) (name : String) (docs : List String)
    (metas : List Metadata) (ids : List String) : Except Exn Store :=
  match st.addExn with
  | some e => .error e
  | none => .ok { st with writes := st.writes ++ [⟨name, docs, metas, ids⟩] }

/-- A file on disk: its raw bytes, the outcome of opening and reading it in
text mode (`.ok` the decoded text, `.error` a `UnicodeDecodeError` or any
other I/O exception), and an optional exception for opening it in binary
mode. -/
structure FileData where
  bytes : List Nat
  text : Except Exn String
  rbExn : Option Exn

/-- `open(path, "rb"); f.read()` on this file. -/
def FileData.readBytes (fd : FileData) : Except Exn (List Nat) :=
  match fd.rbExn with
  | some e => .error e
  | none => .ok fd.bytes

/-- The environment of one `ingest_file` call: whether the module-level
Chroma client was initialized, path expansion/resolution
(`Path(p).expanduser().resolve()`), the filesystem keyed by resolved path,
`mimetypes.guess_type`, the store, and the stream of `uuid.uuid4()` values. -/
structure Env where
  clientInitialized : Bool
  resolve : String → String
  files : List (String × FileData)
  guessType : String → Option String
  store : Store
  uuids : Nat → String

/-- `str.startswith`: prefix test on the character list. -/
def strStartsWith (s p : String) : Bool :=
  p.data.isPrefixOf s.data

/-- `mimetypes.guess_type` followed by `content_type or
"application/octet-stream"`. -/
def guessOrDefault (env : Env) (path : String) : String :=
  match env.guessType path with
  | some s => if s = "" then "application/octet-stream" else s
  | none => "application/octet-stream"

/-- Lines 54-57 of `main.py`: keep a non-empty caller override verbatim,
otherwise guess from the path with the octet-stream fallback (Python's
`if not content_type` treats an empty-string override like a missing one). -/
def resolveContentType (env : Env) (path : String) : Option String → String
  | some s => if s = "" then guessOrDefault env path else s
  | none => guessOrDefault env path

/-- Core of `str.split(sep)` for a non-empty separator `s0 :: srest`,
working on character lists; the first argument is fuel, always called with
at least the length of the list, so the fuel-exhausted case is unreachable. -/
def splitOnFuel (s0 : Char) (srest : List Char) : Nat → List Char → List (List Char)
  | _, [] => [[]]
  | 0, l => [l]
  | fuel + 1, c :: cs =>
    if (s0 :: srest).isPrefixOf (c :: cs) then
      [] :: splitOnFuel s0 srest fuel ((c :: cs).drop (srest.length + 1))
    else
      match splitOnFuel s0 srest fuel cs with
      | [] => [[c]]
      | h :: t => (c :: h) :: t

/-- `str.split(sep)` on strings (an empty separator returns the string
whole; all separators used here are non-empty). -/
def splitOnS (sep : String) (s : String) : List String :=
  match sep.data with
  | [] => [s]
  | c :: cs => (splitOnFuel c cs s.data.length s.data).map String.mk

/-- Raw character-offset splitting: chop a character list into consecutive
pieces of at most `m` characters (for `m = 0`, a degenerate single piece).
The first argument is fuel, always called with at least the length of the
list. -/
def chopCharsFuel : Nat → Nat → List Char → List (List Char)
  | _, _, [] => []
  | 0, _, l => [l]
  | _ + 1, 0, l => [l]
  | fuel + 1, m + 1, c :: cs => (c :: cs.take m) :: chopCharsFuel fuel (m + 1) (cs.drop m)

/-- Raw character-offset splitting on a character list. -/
def chopChars (m : Nat) (l : List Char) : List (List Char) :=
  chopCharsFuel l.length m l

/-- Character-offset splitting on strings. -/
def chunkChars (m : Nat) (s : String) : List String :=
  (chopChars m s.data).map String.mk

/-- The boundary types the chunker tries, coarsest first: paragraph breaks,
sentence breaks, word breaks; raw character offsets are the final fallback. -/
def splitBoundaries : List String := ["\n\n", ". ", " "]

/-- Recursive refinement: split at the current boundary type, keep every
piece within the size bound, and re-split any oversized piece at the next
finer boundary type, bottoming out at raw character offsets. -/
def chunkWith (m : Nat) : List String → String → List String
  | [], s => chunkChars m s
  | sep :: rest, s =>
    (splitOnS sep s).flatMap fun p =>
      if p.length ≤ m then [p] else chunkWith m rest p

/-- Modelled from the spec: the `RecursiveChunker` used at line 71 of
`main.py` comes from the external `chonkie` library, whose code is not under
`src/`. Following the specification: attempt to split the text at the
coarsest semantic boundary type (paragraph breaks); for any candidate piece
still exceeding the maximum size, recursively re-split it using the next
finer boundary type, in order paragraph, sentence, word, raw character
offset; raw-character splitting always satisfies the size bound; empty
input produces an empty sequence (zero fragments). -/
def RecursiveChunker.chunk (chunk_size : Nat) (text : String) : List String :=
  if text = "" then [] else chunkWith chunk_size splitBoundaries text

/-- The MCP `Image(data=..., format=...)` payload returned for image files. -/
structure MCPImage where
  data : List Nat
  format : String
deriving DecidableEq, Repr

/-- The dictionary `ingest_file` returns: the `error` shape, the image shape
`content/content_type/size`, or the success shape
`content/content_type/size/chunks_created`. -/
inductive IngestResult : Type
  | errorResult (msg : String)
  | imageResult (content : MCPImage) (content_type : String) (size : Nat)
  | success (content : String) (content_type : String) (size : Nat) (chunks_created : Nat)
deriving DecidableEq, Repr

/-- The synthetic placeholder text for a non-image binary file (line 108). -/
def binaryPlaceholder (content_type : String) (n : Nat) : String :=
  "<Binary data of type " ++ content_type ++ ", size " ++ toString n ++ " bytes>"

/-- `str[:n]` slicing by code points. -/
def takeS (s : String) (n : Nat) : String :=
  String.mk (s.data.take n)

/-- Line 126: `content[:100] + "..." if len(content) > 100 else content`. -/
def preview (content : String) : String :=
  if content.length > 100 then takeS content 100 ++ "..." else content

/-- Line 64: `content_type.split("/")[-1]`. -/
def imgFormat (content_type : String) : String :=
  (splitOnS "/" content_type).getLastD ""

/-- Lines 104-123, the `except UnicodeDecodeError` handler: read raw bytes,
build the placeholder document, re-fetch the collection and append a single
entry with `is_binary = true`. `chunksOpt` records whether the local variable
`chunks` had already been assigned when the handler was entered, which drives
the `chunks_created` value of line 131; `nextId` is the index of the next
unused uuid. Any exception raised here escapes to the outer handler. -/
def binaryBranch (env : Env) (collection_name path content_type : String)
    (fd : FileData) (nextId : Nat) (chunksOpt : Option (List String)) :
    Except Exn (IngestResult × Store) :=
  match fd.readBytes with
  | .error e => .error e
  | .ok binary_data =>
    let content := binaryPlaceholder content_type binary_data.length
    let size := binary_data.length
    match env.store.getCollection collection_name with
    | .error e => .error e
    | .ok _ =>
      match env.store.add collection_name [content]
          [Metadata.binMeta path content_type true] [env.uuids nextId] with
      | .error e => .error e
      | .ok st =>
        let chunks_created := match chunksOpt with
          | some cs => cs.length
          | none => 1
        .ok (.success (preview content) content_type size chunks_created, st)

/-- Lines 71-132: the inner `try` around the text path. A
`UnicodeDecodeError` raised anywhere inside it (normally by the text-mode
read) transfers to `binaryBranch`; any other exception escapes to the outer
handler. On success, the response dictionary of lines 127-132 is built with
the truncated preview and `chunks_created = len(chunks)`. -/
def textBranch (env : Env) (collection_name path content_type : String)
    (fd : FileData) : Except Exn (IngestResult × Store) :=
  match fd.text with
  | .error e =>
    if e.ty = ExnTy.unicodeDecodeError then
      binaryBranch env collection_name path content_type fd 0 none
    else .error e
  | .ok content =>
    let size := content.length
    let chunks := RecursiveChunker.chunk 1024 content
    let documents := chunks
    let metadatas := (List.range chunks.length).map fun i =>
      Metadata.textMeta path content_type i chunks.length
    let ids := (List.range chunks.length).map env.uuids
    match env.store.getCollection collection_name with
    | .error e =>
      if e.ty = ExnTy.unicodeDecodeError then
        binaryBranch env collection_name path content_type fd chunks.length (some chunks)
      else .error e
    | .ok _ =>
      match env.store.add collection_name documents metadatas ids with
      | .error e =>
        if e.ty = ExnTy.unicodeDecodeError then
          binaryBranch env collection_name path content_type fd chunks.length (some chunks)
        else .error e
      | .ok st =>
        .ok (.success (preview content) content_type size chunks.length, st)

/-- Lines 46-132, the body of the outer `try`: resolve the path, check file
existence, resolve the content type, and dispatch on the image / text /
binary branches. An `Except.error` result is an exception reaching the
outer handler. -/
def ingestBody (env : Env) (file_path collection_name : String)
    (content_type : Option String) : Except Exn (IngestResult × Store) :=
  let path := env.resolve file_path
  match env.files.lookup path with
  | none => .ok (.errorResult ("File not found: " ++ file_path), env.store)
  | some fd =>
    let ct := resolveContentType env path content_type
    if strStartsWith ct "image/" then
      match fd.readBytes with
      | .error e => .error e
      | .ok binary_data =>
        .ok (.imageResult ⟨binary_data, imgFormat ct⟩ ct binary_data.length, env.store)
    else
      textBranch env collection_name path ct fd

/-- `ingest_file(file_path, collection_name, content_type)` of `main.py`:
the client-initialization guard, the collection-existence check whose
`except` clause catches only `ValueError` (lines 39-44), and the outer
`try/except Exception` (lines 46-135) converting every exception raised in
the body to the `Error reading file` dictionary. The second component is
the store after the call. -/
def ingest_file (env : Env) (file_path collection_name : String)
    (content_type : Option String) : Except Exn IngestResult × Store :=
  if env.clientInitialized then
    match env.store.getCollection collection_name with
    | .error e =>
      if e.ty = ExnTy.valueError then
        (.ok (.errorResult ("Collection \x27" ++ collection_name ++
          "\x27 does not exist. Please create it first.")), env.store)
      else (.error e, env.store)
    | .ok _ =>
      match ingestBody env file_path collection_name content_type with
      | .ok (r, st) => (.ok r, st)
      | .error e =>
        (.ok (.errorResult ("Error reading file: " ++ e.msg)), env.store)
  else (.ok (.errorResult "Chroma client not initialized"), env.store)

theorem chopCharsFuel_length_le :
    ∀ (fuel m : Nat) (l : List Char), l.length ≤ fuel → 0 < m →
      ∀ cl ∈ chopCharsFuel fuel m l, cl.length ≤ m := by
  intro fuel
  induction fuel with
  | zero =>
    intro m l hl _ cl hcl
    have : l = [] := List.eq_nil_of_length_eq_zero (Nat.le_zero.mp hl)
    subst this
    simp [chopCharsFuel] at hcl
  | succ fuel ih =>
    intro m l hl hm cl hcl
    cases l with
    | nil => simp [chopCharsFuel] at hcl
    | cons c cs =>
      cases m with
      | zero => exact absurd hm (by omega)
      | succ m =>
        rw [chopCharsFuel] at hcl
        rcases List.mem_cons.mp hcl with h | h
        · subst h
          simp [List.length_take]
        · refine ih (m + 1) (cs.drop m) ?_ (Nat.succ_pos m) cl h
          simp only [List.length_cons] at hl
          simp [List.length_drop]
          omega

theorem chopChars_length_le (m : Nat) (l : List Char) (hm : 0 < m) :
    ∀ cl ∈ chopChars m l, cl.length ≤ m :=
  chopCharsFuel_length_le l.length m l (Nat.le_refl _) hm

theorem chunkWith_length_le (m : Nat) (hm : 0 < m) :
    ∀ (seps : List String) (s : String), ∀ c ∈ chunkWith m seps s, c.length ≤ m := by
  intro seps
  induction seps with
  | nil =>
    intro s c hc
    rw [chunkWith] at hc
    simp [chunkChars] at hc
    obtain ⟨cl, hcl, rfl⟩ := hc
    exact chopChars_length_le m s.data hm cl hcl
  | cons sep rest ih =>
    intro s c hc
    rw [chunkWith] at hc
    rcases List.mem_flatMap.mp hc with ⟨p, hp, hcp⟩
    by_cases hle : p.length ≤ m
    · simp [hle] at hcp
      exact hcp ▸ hle
    · simp [hle] at hcp
      exact ih p c hcp

theorem getCollection_ok (st : Store) (cn : String)
    (h2 : st.getExn.lookup cn = none) (h3 : st.collections.contains cn = true) :
    st.getCollection cn = .ok () := by
  simp [Store.getCollection, h2]
  simpa using h3

theorem preview_of_le (s : String) (h : s.length ≤ 100) : preview s = s := by
  simp only [preview]
  rw [if_neg (by omega)]

theorem preview_of_gt (s : String) (h : 100 < s.length) :
    preview s = takeS s 100 ++ "..." := by
  simp only [preview]
  rw [if_pos (by omega)]

theorem image_path_spec (env : Env) (fp cn : String) (cto : Option String) (fd : FileData)
    (h1 : env.clientInitialized = true)
    (h2 : env.store.getExn.lookup cn = none)
    (h3 : env.store.collections.contains cn = true)
    (h4 : env.files.lookup (env.resolve fp) = some fd)
    (h5 : strStartsWith (resolveContentType env (env.resolve fp) cto) "image/" = true)
    (h8 : fd.rbExn = none) :
    ingest_file env fp cn cto =
      (.ok (.imageResult ⟨fd.bytes, imgFormat (resolveContentType env (env.resolve fp) cto)⟩
        (resolveContentType env (env.resolve fp) cto) fd.bytes.length), env.store) := by
  simp [ingest_file, ingestBody, getCollection_ok env.store cn h2 h3, h1, h4, h5,
    FileData.readBytes, h8]

theorem text_path_spec (env : Env) (fp cn : String) (cto : Option String) (fd : FileData)
    (s : String)
    (h1 : env.clientInitialized = true)
    (h2 : env.store.getExn.lookup cn = none)
    (h3 : env.store.collections.contains cn = true)
    (h4 : env.files.lookup (env.resolve fp) = some fd)
    (h5 : strStartsWith (resolveContentType env (env.resolve fp) cto) "image/" = false)
    (h6 : fd.text = .ok s)
    (h7 : env.store.addExn = none) :
    ingest_file env fp cn cto =
      (.ok (.success (preview s) (resolveContentType env (env.resolve fp) cto) s.length
          (RecursiveChunker.chunk 1024 s).length),
        { env.store with writes := env.store.writes ++
          [⟨cn, RecursiveChunker.chunk 1024 s,
            (List.range (RecursiveChunker.chunk 1024 s).length).map (fun i =>
              Metadata.textMeta (env.resolve fp) (resolveContentType env (env.resolve fp) cto) i
                (RecursiveChunker.chunk 1024 s).length),
            (List.range (RecursiveChunker.chunk 1024 s).length).map env.uuids⟩] }) := by
  simp [ingest_file, ingestBody, textBranch, getCollection_ok env.store cn h2 h3, h1, h4, h5,
    h6, Store.add, h7]

theorem binary_path_spec (env : Env) (fp cn : String) (cto : Option String) (fd : FileData)
    (e : Exn)
    (h1 : env.clientInitialized = true)
    (h2 : env.store.getExn.lookup cn = none)
    (h3 : env.store.collections.contains cn = true)
    (h4 : env.files.lookup (env.resolve fp) = some fd)
    (h5 : strStartsWith (resolveContentType env (env.resolve fp) cto) "image/" = false)
    (h6 : fd.text = .error e)
    (he : e.ty = ExnTy.unicodeDecodeError)
    (h8 : fd.rbExn = none)
    (h7 : env.store.addExn = none) :
    ingest_file env fp cn cto =
      (.ok (.success (preview (binaryPlaceholder (resolveContentType env (env.resolve fp) cto)
          fd.bytes.length))
          (resolveContentType env (env.resolve fp) cto) fd.bytes.length 1),
        { env.store with writes := env.store.writes ++
          [⟨cn, [binaryPlaceholder (resolveContentType env (env.resolve fp) cto) fd.bytes.length],
            [Metadata.binMeta (env.resolve fp)
              (resolveContentType env (env.resolve fp) cto) true],
            [env.uuids 0]⟩] }) := by
  simp [ingest_file, ingestBody, textBranch, binaryBranch, getCollection_ok env.store cn h2 h3,
    h1, h4, h5, h6, he, FileData.readBytes, h8, Store.add, h7]

theorem strStartsWith_image_ne_empty (ot : String)
    (h : strStartsWith ot "image/" = true) : ot ≠ "" := by
  intro he
  subst he
  exact absurd h (by decide)

/-- C3: every fragment produced by the ingestion pipeline's RecursiveChunker
at the fixed maximum fragment size 1024 has length at most 1024, measured in
characters, the same unit as the content size the pipeline reports. -/
theorem C3_fragment_length_bound (s c : String)
    (h : c ∈ RecursiveChunker.chunk 1024 s) : c.length ≤ 1024 := by
  unfold RecursiveChunker.chunk at h
  split at h
  · simp at h
  · exact chunkWith_length_le 1024 (by omega) splitBoundaries s c h

theorem C3_fragment_length_bound_witness :
    ("hello world" ∈ RecursiveChunker.chunk 1024 "hello world") ∧
      ("hello world" : String).length ≤ 1024 :=
  ⟨by decide, C3_fragment_length_bound "hello world" "hello world" (by decide)⟩

/-- C5: ingesting into a collection that does not exist in the store yields
the collection-not-found error dictionary and leaves the store unchanged, so
zero writes are performed. -/
theorem C5_collection_not_found (env : Env) (fp cn : String) (cto : Option String)
    (h1 : env.clientInitialized = true)
    (h2 : env.store.getExn.lookup cn = none)
    (h3 : env.store.collections.contains cn = false) :
    ingest_file env fp cn cto =
      (.ok (.errorResult ("Collection \x27" ++ cn ++
        "\x27 does not exist. Please create it first.")), env.store) := by
  have hg : env.store.getCollection cn =
      .error ⟨.valueError, "Collection " ++ cn ++ " does not exist"⟩ := by
    rw [Store.getCollection, h2]
    simp only [h3]
    rfl
  simp [ingest_file, h1, hg]

def envC5 : Env :=
  { clientInitialized := true
    resolve := fun s => s
    files := []
    guessType := fun _ => none
    store := ⟨[], [], none, []⟩
    uuids := fun _ => "" }

theorem C5_collection_not_found_witness :
    ingest_file envC5 "f.txt" "c" none =
      (.ok (.errorResult "Collection \x27c\x27 does not exist. Please create it first."),
        envC5.store) :=
  C5_collection_not_found envC5 "f.txt" "c" none rfl rfl rfl

/-- C6: when the expanded and resolved file path does not exist, ingest_file
on an existing collection yields the file-not-found error dictionary and
leaves the store unchanged, so zero writes are performed. -/
theorem C6_file_not_found (env : Env) (fp cn : String) (cto : Option String)
    (h1 : env.clientInitialized = true)
    (h2 : env.store.getExn.lookup cn = none)
    (h3 : env.store.collections.contains cn = true)
    (h4 : env.files.lookup (env.resolve fp) = none) :
    ingest_file env fp cn cto =
      (.ok (.errorResult ("File not found: " ++ fp)), env.store) := by
  simp [ingest_file, ingestBody, getCollection_ok env.store cn h2 h3, h1, h4]

def envC6 : Env :=
  { clientInitialized := true
    resolve := fun s => s
    files := []
    guessType := fun _ => none
    store := ⟨["c"], [], none, []⟩
    uuids := fun _ => "" }

theorem C6_file_not_found_witness :
    ingest_file envC6 "missing.txt" "c" none =
      (.ok (.errorResult "File not found: missing.txt"), envC6.store) :=
  C6_file_not_found envC6 "missing.txt" "c" none rfl rfl rfl rfl

/-- C8: when the resolved content type starts with "image/", ingest_file on
an existing collection and existing file returns the inline image payload
carrying the resolved content type and the byte size, and the collection
store is not written to at all: it is returned unchanged. -/
theorem C8_image_inline_no_write (env : Env) (fp cn : String) (cto : Option String)
    (fd : FileData)
    (h1 : env.clientInitialized = true)
    (h2 : env.store.getExn.lookup cn = none)
    (h3 : env.store.collections.contains cn = true)
    (h4 : env.files.lookup (env.resolve fp) = some fd)
    (h5 : strStartsWith (resolveContentType env (env.resolve fp) cto) "image/" = true)
    (h8 : fd.rbExn = none) :
    ingest_file env fp cn cto =
      (.ok (.imageResult ⟨fd.bytes, imgFormat (resolveContentType env (env.resolve fp) cto)⟩
        (resolveContentType env (env.resolve fp) cto) fd.bytes.length), env.store) :=
  image_path_spec env fp cn cto fd h1 h2 h3 h4 h5 h8

def envC8 : Env :=
  { clientInitialized := true
    resolve := fun s => s
    files := [("img.png", ⟨[137, 80, 78, 71], .error ⟨.unicodeDecodeError, "invalid"⟩, none⟩)]
    guessType := fun p => if p = "img.png" then some "image/png" else none
    store := ⟨["c"], [], none, []⟩
    uuids := fun _ => "" }

theorem C8_image_inline_no_write_witness :
    ingest_file envC8 "img.png" "c" none =
      (.ok (.imageResult ⟨[137, 80, 78, 71], "png"⟩ "image/png" 4), envC8.store) :=
  C8_image_inline_no_write envC8 "img.png" "c" none
    ⟨[137, 80, 78, 71], .error ⟨.unicodeDecodeError, "invalid"⟩, none⟩
    rfl rfl rfl rfl rfl rfl

/-- C10: the image/text/binary branch is chosen from the resolved
content-type string alone, which is fixed before any file content is read;
in particular a caller-supplied override beginning with "image/" makes
ingest_file return the file's raw bytes inline with zero store writes, for
every file whatsoever, regardless of its actual contents. -/
theorem C10_override_image_branch (env : Env) (fp cn : String) (ot : String)
    (fd : FileData)
    (h1 : env.clientInitialized = true)
    (h2 : env.store.getExn.lookup cn = none)
    (h3 : env.store.collections.contains cn = true)
    (h4 : env.files.lookup (env.resolve fp) = some fd)
    (hot : strStartsWith ot "image/" = true)
    (h8 : fd.rbExn = none) :
    ingest_file env fp cn (some ot) =
      (.ok (.imageResult ⟨fd.bytes, imgFormat ot⟩ ot fd.bytes.length), env.store) := by
  have hne : ot ≠ "" := strStartsWith_image_ne_empty ot hot
  have hres : resolveContentType env (env.resolve fp) (some ot) = ot := by
    simp [resolveContentType, hne]
  have h := image_path_spec env fp cn (some ot) fd h1 h2 h3 h4 (by rw [hres]; exact hot) h8
  rwa [hres] at h

def envC10 : Env :=
  { clientInitialized := true
    resolve := fun s => s
    files := [("doc.txt", ⟨[104, 105], .ok "hi", none⟩)]
    guessType := fun _ => some "text/plain"
    store := ⟨["c"], [], none, []⟩
    uuids := fun _ => "" }

theorem C10_override_image_branch_witness :
    ingest_file envC10 "doc.txt" "c" (some "image/png") =
      (.ok (.imageResult ⟨[104, 105], "png"⟩ "image/png" 2), envC10.store) :=
  C10_override_image_branch envC10 "doc.txt" "c" "image/png"
    ⟨[104, 105], .ok "hi", none⟩ rfl rfl rfl rfl rfl rfl

/-- C1 (amended): ingesting an existing, validly-encoded empty text file into
an existing collection reports a coherent success with zero chunks created,
but the store's append operation is still invoked once, with empty document,
metadata and id lists, appending zero fragments. -/
theorem C1_empty_file_ingest (env : Env) (fp cn : String) (cto : Option String)
    (fd : FileData)
    (h1 : env.clientInitialized = true)
    (h2 : env.store.getExn.lookup cn = none)
    (h3 : env.store.collections.contains cn = true)
    (h4 : env.files.lookup (env.resolve fp) = some fd)
    (h5 : strStartsWith (resolveContentType env (env.resolve fp) cto) "image/" = false)
    (h6 : fd.text = .ok "")
    (h7 : env.store.addExn = none) :
    ingest_file env fp cn cto =
      (.ok (.success "" (resolveContentType env (env.resolve fp) cto) 0 0),
        { env.store with writes := env.store.writes ++ [⟨cn, [], [], []⟩] }) := by
  have h := text_path_spec env fp cn cto fd "" h1 h2 h3 h4 h5 h6 h7
  simpa [RecursiveChunker.chunk, preview] using h

def envC1 : Env :=
  { clientInitialized := true
    resolve := fun s => s
    files := [("f.txt", ⟨[], .ok "", none⟩)]
    guessType := fun _ => some "text/plain"
    store := ⟨["c"], [], none, []⟩
    uuids := fun n => toString n }

/-- C1, counterexample to the claim as stated: for an empty text file the
call does report a coherent success with zero chunks created, but it does
not leave the collection store untouched — starting from an empty write log,
the store's append operation has been invoked once by the end of the call
(with empty lists), because line 102 of `main.py` calls `collection.add`
unconditionally. -/
theorem C1_counterexample :
    (ingest_file envC1 "f.txt" "c" none).1 = .ok (.success "" "text/plain" 0 0) ∧
      envC1.store.writes = [] ∧
      (ingest_file envC1 "f.txt" "c" none).2.writes = [⟨"c", [], [], []⟩] :=
  ⟨rfl, rfl, rfl⟩

theorem C1_empty_file_ingest_witness :
    ingest_file envC1 "f.txt" "c" none =
      (.ok (.success "" "text/plain" 0 0),
        { envC1.store with writes := envC1.store.writes ++ [⟨"c", [], [], []⟩] }) :=
  C1_empty_file_ingest envC1 "f.txt" "c" none ⟨[], .ok "", none⟩
    rfl rfl rfl rfl rfl rfl rfl

/-- C2 (amended): every exception raised inside the pipeline body — path
resolution, file access, chunking, and the store calls made there — is
caught and converted to the error-dictionary shape; provided the initial
collection-existence check raises nothing other than a ValueError, the call
always returns a dictionary and no exception propagates out. -/
theorem C2_no_exception_escape (env : Env) (fp cn : String) (cto : Option String)
    (h : ∀ e, env.store.getCollection cn = .error e → e.ty = ExnTy.valueError) :
    ∃ r, (ingest_file env fp cn cto).1 = .ok r := by
  rw [ingest_file]
  by_cases h1 : env.clientInitialized
  · rw [if_pos h1]
    cases hg : env.store.getCollection cn with
    | error e =>
      have hty := h e hg
      refine ⟨.errorResult ("Collection \x27" ++ cn ++
        "\x27 does not exist. Please create it first."), ?_⟩
      simp [hty]
    | ok u =>
      cases hb : ingestBody env fp cn cto with
      | ok rs =>
        obtain ⟨r, st⟩ := rs
        exact ⟨r, by simp⟩
      | error e =>
        refine ⟨.errorResult ("Error reading file: " ++ e.msg), ?_⟩
        simp
  · rw [if_neg h1]
    exact ⟨_, rfl⟩

def envC2 : Env :=
  { clientInitialized := true
    resolve := fun s => s
    files := []
    guessType := fun _ => none
    store := ⟨["c"], [("c", ⟨.otherError, "connection failed"⟩)], none, []⟩
    uuids := fun _ => "" }

/-- C2, counterexample to the claim as stated: a collection-store failure in
the initial existence check that is not a ValueError — here a generic
connection failure — propagates out of ingest_file instead of being
converted to an error dictionary, because the handler at lines 39-44 of
`main.py` catches only ValueError. -/
theorem C2_counterexample :
    (ingest_file envC2 "f.txt" "c" none).1 =
      .error ⟨ExnTy.otherError, "connection failed"⟩ := rfl

def envC2w : Env :=
  { clientInitialized := true
    resolve := fun s => s
    files := []
    guessType := fun _ => none
    store := ⟨["c"], [], none, []⟩
    uuids := fun _ => "" }

theorem C2_no_exception_escape_witness :
    ∃ r, (ingest_file envC2w "f.txt" "c" none).1 = .ok r :=
  C2_no_exception_escape envC2w "f.txt" "c" none (fun e he =>
    Except.noConfusion (show Except.ok () = Except.error e from he))

/-- C4: a text-path ingest producing n fragments appends exactly one write
whose per-fragment metadata carries chunk_index values forming exactly the
range 0..n-1 in fragment order, with no gaps or repeats, and total_chunks
equal to n in every record. -/
theorem C4_chunk_index_metadata (env : Env) (fp cn : String) (cto : Option String)
    (fd : FileData) (s : String)
    (h1 : env.clientInitialized = true)
    (h2 : env.store.getExn.lookup cn = none)
    (h3 : env.store.collections.contains cn = true)
    (h4 : env.files.lookup (env.resolve fp) = some fd)
    (h5 : strStartsWith (resolveContentType env (env.resolve fp) cto) "image/" = false)
    (h6 : fd.text = .ok s)
    (h7 : env.store.addExn = none) :
    ∃ rec, (ingest_file env fp cn cto).2.writes = env.store.writes ++ [rec] ∧
      rec.documents = RecursiveChunker.chunk 1024 s ∧
      rec.metadatas.map Metadata.chunkIndex =
        (List.range (RecursiveChunker.chunk 1024 s).length).map some ∧
      (∀ md ∈ rec.metadatas,
        md.totalChunks = some (RecursiveChunker.chunk 1024 s).length) := by
  have hspec := text_path_spec env fp cn cto fd s h1 h2 h3 h4 h5 h6 h7
  refine ⟨⟨cn, RecursiveChunker.chunk 1024 s,
      (List.range (RecursiveChunker.chunk 1024 s).length).map (fun i =>
        Metadata.textMeta (env.resolve fp) (resolveContentType env (env.resolve fp) cto) i
          (RecursiveChunker.chunk 1024 s).length),
      (List.range (RecursiveChunker.chunk 1024 s).length).map env.uuids⟩,
    by rw [hspec], rfl, ?_, ?_⟩
  · rw [List.map_map]
    simp [Function.comp, Metadata.chunkIndex]
  · intro md hmd
    simp only [List.mem_map, List.mem_range] at hmd
    obtain ⟨i, _, rfl⟩ := hmd
    rfl

def envC4 : Env :=
  { clientInitialized := true
    resolve := fun s => s
    files := [("f.txt", ⟨[104, 105], .ok "hi", none⟩)]
    guessType := fun _ => some "text/plain"
    store := ⟨["c"], [], none, []⟩
    uuids := fun n => toString n }

theorem C4_chunk_index_metadata_witness :
    ∃ rec, (ingest_file envC4 "f.txt" "c" none).2.writes = envC4.store.writes ++ [rec] ∧
      rec.documents = RecursiveChunker.chunk 1024 "hi" ∧
      rec.metadatas.map Metadata.chunkIndex =
        (List.range (RecursiveChunker.chunk 1024 "hi").length).map some ∧
      (∀ md ∈ rec.metadatas,
        md.totalChunks = some (RecursiveChunker.chunk 1024 "hi").length) :=
  C4_chunk_index_metadata envC4 "f.txt" "c" none ⟨[104, 105], .ok "hi", none⟩ "hi"
    rfl rfl rfl rfl rfl rfl rfl

/-- C7: for every successful text or binary ingest, the content preview in
the response equals the content verbatim when the content has at most 100
characters, and equals exactly the first 100 characters followed by the
ellipsis marker when the content is longer than 100 characters. -/
theorem C7_preview_truncation (env : Env) (fp cn : String) (cto : Option String)
    (fd : FileData)
    (h1 : env.clientInitialized = true)
    (h2 : env.store.getExn.lookup cn = none)
    (h3 : env.store.collections.contains cn = true)
    (h4 : env.files.lookup (env.resolve fp) = some fd)
    (h5 : strStartsWith (resolveContentType env (env.resolve fp) cto) "image/" = false)
    (h7 : env.store.addExn = none) :
    (∀ s, fd.text = .ok s →
      ∃ c, (ingest_file env fp cn cto).1 =
          .ok (.success c (resolveContentType env (env.resolve fp) cto) s.length
            (RecursiveChunker.chunk 1024 s).length) ∧
        (s.length ≤ 100 → c = s) ∧
        (100 < s.length → c = takeS s 100 ++ "...")) ∧
    (∀ e, fd.text = .error e → e.ty = ExnTy.unicodeDecodeError → fd.rbExn = none →
      ∃ c, (ingest_file env fp cn cto).1 =
          .ok (.success c (resolveContentType env (env.resolve fp) cto) fd.bytes.length 1) ∧
        ((binaryPlaceholder (resolveContentType env (env.resolve fp) cto)
            fd.bytes.length).length ≤ 100 →
          c = binaryPlaceholder (resolveContentType env (env.resolve fp) cto)
            fd.bytes.length) ∧
        (100 < (binaryPlaceholder (resolveContentType env (env.resolve fp) cto)
            fd.bytes.length).length →
          c = takeS (binaryPlaceholder (resolveContentType env (env.resolve fp) cto)
            fd.bytes.length) 100 ++ "...")) := by
  constructor
  · intro s hs
    have hspec := text_path_spec env fp cn cto fd s h1 h2 h3 h4 h5 hs h7
    exact ⟨preview s, by rw [hspec], fun hle => preview_of_le s hle,
      fun hgt => preview_of_gt s hgt⟩
  · intro e he hety hrb
    have hspec := binary_path_spec env fp cn cto fd e h1 h2 h3 h4 h5 he hety hrb h7
    exact ⟨preview (binaryPlaceholder (resolveContentType env (env.resolve fp) cto)
        fd.bytes.length),
      by rw [hspec], fun hle => preview_of_le _ hle, fun hgt => preview_of_gt _ hgt⟩

def envC7 : Env :=
  { clientInitialized := true
    resolve := fun s => s
    files := [("f.txt", ⟨[104, 105], .ok "hi", none⟩)]
    guessType := fun _ => some "text/plain"
    store := ⟨["c"], [], none, []⟩
    uuids := fun n => toString n }

theorem C7_preview_truncation_witness :
    (∀ s, FileData.text ⟨[104, 105], .ok "hi", none⟩ = .ok s →
      ∃ c, (ingest_file envC7 "f.txt" "c" none).1 =
          .ok (.success c (resolveContentType envC7 (envC7.resolve "f.txt") none) s.length
            (RecursiveChunker.chunk 1024 s).length) ∧
        (s.length ≤ 100 → c = s) ∧
        (100 < s.length → c = takeS s 100 ++ "...")) ∧
    (∀ e, FileData.text ⟨[104, 105], .ok "hi", none⟩ = .error e →
        e.ty = ExnTy.unicodeDecodeError →
        FileData.rbExn ⟨[104, 105], .ok "hi", none⟩ = none →
      ∃ c, (ingest_file envC7 "f.txt" "c" none).1 =
          .ok (.success c (resolveContentType envC7 (envC7.resolve "f.txt") none)
            (FileData.bytes ⟨[104, 105], .ok "hi", none⟩).length 1) ∧
        ((binaryPlaceholder (resolveContentType envC7 (envC7.resolve "f.txt") none)
            (FileData.bytes ⟨[104, 105], .ok "hi", none⟩).length).length ≤ 100 →
          c = binaryPlaceholder (resolveContentType envC7 (envC7.resolve "f.txt") none)
            (FileData.bytes ⟨[104, 105], .ok "hi", none⟩).length) ∧
        (100 < (binaryPlaceholder (resolveContentType envC7 (envC7.resolve "f.txt") none)
            (FileData.bytes ⟨[104, 105], .ok "hi", none⟩).length).length →
          c = takeS (binaryPlaceholder (resolveContentType envC7 (envC7.resolve "f.txt") none)
            (FileData.bytes ⟨[104, 105], .ok "hi", none⟩).length) 100 ++ "...")) :=
  C7_preview_truncation envC7 "f.txt" "c" none ⟨[104, 105], .ok "hi", none⟩
    rfl rfl rfl rfl rfl rfl

/-- C9: ingesting an existing non-image file whose bytes fail text decoding
into an existing collection writes exactly one fragment — the placeholder
text embedding the content type and byte size, with is_binary metadata true
— and the response reports chunks_created = 1. -/
theorem C9_binary_single_fragment (env : Env) (fp cn : String) (cto : Option String)
    (fd : FileData) (e : Exn)
    (h1 : env.clientInitialized = true)
    (h2 : env.store.getExn.lookup cn = none)
    (h3 : env.store.collections.contains cn = true)
    (h4 : env.files.lookup (env.resolve fp) = some fd)
    (h5 : strStartsWith (resolveContentType env (env.resolve fp) cto) "image/" = false)
    (h6 : fd.text = .error e)
    (hety : e.ty = ExnTy.unicodeDecodeError)
    (h8 : fd.rbExn = none)
    (h7 : env.store.addExn = none) :
    ∃ rec, (ingest_file env fp cn cto).2.writes = env.store.writes ++ [rec] ∧
      rec.documents = [binaryPlaceholder (resolveContentType env (env.resolve fp) cto)
        fd.bytes.length] ∧
      rec.metadatas = [Metadata.binMeta (env.resolve fp)
        (resolveContentType env (env.resolve fp) cto) true] ∧
      (∀ md ∈ rec.metadatas, md.isBinary = some true) ∧
      (ingest_file env fp cn cto).1 =
        .ok (.success (preview (binaryPlaceholder
            (resolveContentType env (env.resolve fp) cto) fd.bytes.length))
          (resolveContentType env (env.resolve fp) cto) fd.bytes.length 1) := by
  have hspec := binary_path_spec env fp cn cto fd e h1 h2 h3 h4 h5 h6 hety h8 h7
  refine ⟨⟨cn, [binaryPlaceholder (resolveContentType env (env.resolve fp) cto)
      fd.bytes.length],
    [Metadata.binMeta (env.resolve fp) (resolveContentType env (env.resolve fp) cto) true],
    [env.uuids 0]⟩,
    by rw [hspec], rfl, rfl, ?_, by rw [hspec]⟩
  intro md hmd
  simp only [List.mem_singleton] at hmd
  subst hmd
  rfl

def envC9 : Env :=
  { clientInitialized := true
    resolve := fun s => s
    files := [("f.bin", ⟨[0, 159, 146, 150], .error ⟨.unicodeDecodeError, "invalid start byte"⟩, none⟩)]
    guessType := fun _ => none
    store := ⟨["c"], [], none, []⟩
    uuids := fun n => toString n }

theorem C9_binary_single_fragment_witness :
    ∃ rec, (ingest_file envC9 "f.bin" "c" none).2.writes = envC9.store.writes ++ [rec] ∧
      rec.documents = [binaryPlaceholder
        (resolveContentType envC9 (envC9.resolve "f.bin") none)
        (FileData.bytes ⟨[0, 159, 146, 150],
          .error ⟨.unicodeDecodeError, "invalid start byte"⟩, none⟩).length] ∧
      rec.metadatas = [Metadata.binMeta (envC9.resolve "f.bin")
        (resolveContentType envC9 (envC9.resolve "f.bin") none) true] ∧
      (∀ md ∈ rec.metadatas, md.isBinary = some true) ∧
      (ingest_file envC9 "f.bin" "c" none).1 =
        .ok (.success (preview (binaryPlaceholder
            (resolveContentType envC9 (envC9.resolve "f.bin") none)
            (FileData.bytes ⟨[0, 159, 146, 150],
              .error ⟨.unicodeDecodeError, "invalid start byte"⟩, none⟩).length))
          (resolveContentType envC9 (envC9.resolve "f.bin") none)
          (FileData.bytes ⟨[0, 159, 146, 150],
            .error ⟨.unicodeDecodeError, "invalid start byte"⟩, none⟩).length 1) :=
  C9_binary_single_fragment envC9 "f.bin" "c" none
    ⟨[0, 159, 146, 150], .error ⟨.unicodeDecodeError, "invalid start byte"⟩, none⟩
    ⟨.unicodeDecodeError, "invalid start byte"⟩
    rfl rfl rfl rfl rfl rfl rfl rfl rfl
